import Mathlib

/-!
Shallow embedding of the sythioBackend chat service.

The embedding follows the source files:
- `models.py`   : message roles and entity shapes;
- `database.py` : `DatabaseService` operations over a store state;
- `ai_service.py`: `AIService.generate_streaming_response` and
  `generate_chat_title` (the completion-source adapter);
- `main.py`     : the stream endpoint under the path `/api/chats/id/stream`
  (`stream_message`, its inner generator `generate_stream`, and the
  `generate_and_update_title` background task).

Opaque server-assigned identifiers are modelled as `Nat`; timestamps as
`Nat`.  The supabase client is modelled as a store state plus a `failing`
flag standing for the store being unreachable (every supabase call raising).
Streamed SSE chunks are modelled as structured events instead of their JSON
serialisations.
-/

namespace Sythio

/-- Model of `MessageRole` from `models.py`: a closed enumeration `user | assistant`. -/
inductive MessageRole where
  | user
  | assistant
deriving DecidableEq, Repr

/-- One row of the `messages` table (fields used by the code:
`id`, `chat_id`, `role`, `content`, `is_streaming`).  Creation order is the
position in `Store.messages`, standing for ascending `created_at`. -/
structure Message where
  id : Nat
  chatId : Nat
  role : MessageRole
  content : String
  isStreaming : Bool
deriving DecidableEq, Repr

/-- One row of the `chats` table (fields used by the code:
`id`, `title`, `user_id`, `updated_at`). -/
structure Chat where
  id : Nat
  title : String
  userId : Nat
  updatedAt : Nat
deriving DecidableEq, Repr

/-- The state of the supabase store.  `failing = true` models the store
being unavailable: every table operation raises.  `nextId` is the next
server-assigned identifier. -/
structure Store where
  chats : List Chat
  messages : List Message
  failing : Bool
  nextId : Nat
deriving Repr

/-- Model of `settings.DEMO_USER_ID` from `config.py` (an opaque constant). -/
def demoUserId : Nat := 0

/-- Errors raised by `DatabaseService` operations that re-raise:
`storage` models the supabase client raising, `notMatched` models the
explicit `raise Exception(...)` when no row matched. -/
inductive DBError where
  | storage
  | notMatched
deriving DecidableEq, Repr

/-- Model of `DatabaseService.get_chat`: select single row by id and user id; the
`except` clause swallows every failure into `None`, so a failing store is
observed as `none`. -/
def getChat (s : Store) (cid uid : Nat) : Option Chat :=
  if s.failing then none
  else s.chats.find? (fun c => c.id == cid && c.userId == uid)

/-- Number of messages of a chat (`select("id", count="exact")` on the
`messages` table filtered by `chat_id`). -/
def countMessages (s : Store) (cid : Nat) : Nat :=
  (s.messages.filter (fun m => m.chatId == cid)).length

/-- Model of `DatabaseService.get_messages`: all messages of a chat ordered by
ascending `created_at` (the storage order); re-raises on store failure. -/
def getMessages (s : Store) (cid : Nat) : Except DBError (List Message) :=
  if s.failing then .error .storage
  else .ok (s.messages.filter (fun m => m.chatId == cid))

/-- Model of `DatabaseService.create_message`: insert a row with a server-assigned
id; re-raises on store failure. -/
def createMessage (s : Store) (cid : Nat) (role : MessageRole)
    (content : String) (streaming : Bool) : Except DBError (Store × Message) :=
  if s.failing then .error .storage
  else
    let m : Message := ⟨s.nextId, cid, role, content, streaming⟩
    .ok ({ s with messages := s.messages ++ [m], nextId := s.nextId + 1 }, m)

/-- The pure row update behind `update_message_content`: set `content`,
and `is_streaming` when given (`is_streaming=None` leaves it unchanged). -/
def setMessage (s : Store) (mid : Nat) (content : String)
    (streaming : Option Bool) : Store :=
  { s with
    messages := s.messages.map (fun m =>
      if m.id == mid then
        { m with content := content, isStreaming := streaming.getD m.isStreaming }
      else m) }

/-- Model of `DatabaseService.update_message_content`: update by id; raises
`Failed to update message` when no row matched; re-raises on store failure. -/
def updateMessageContent (s : Store) (mid : Nat) (content : String)
    (streaming : Option Bool) : Except DBError Store :=
  if s.failing then .error .storage
  else if s.messages.any (fun m => m.id == mid) then
    .ok (setMessage s mid content streaming)
  else .error .notMatched

/-- Model of `DatabaseService.update_chat_title`: update by id; raises
`Failed to update chat title` when no row matched; re-raises on store
failure. -/
def updateChatTitle (s : Store) (cid : Nat) (title : String) :
    Except DBError Store :=
  if s.failing then .error .storage
  else if s.chats.any (fun c => c.id == cid) then
    .ok { s with
          chats := s.chats.map (fun c =>
            if c.id == cid then { c with title := title } else c) }
  else .error .notMatched

/-- Model of `DatabaseService.delete_chat`: delete by id and user id, messages
cascade; returns whether a row was deleted; the `except` clause swallows
every failure into `False`. -/
def deleteChat (s : Store) (cid uid : Nat) : Bool × Store :=
  if s.failing then (false, s)
  else if s.chats.any (fun c => c.id == cid && c.userId == uid) then
    (true,
     { s with
       chats := s.chats.filter (fun c => !(c.id == cid && c.userId == uid)),
       messages := s.messages.filter (fun m => m.chatId != cid) })
  else (false, s)

/-- The ordering used by `get_chats`: `order("updated_at", desc=True)`. -/
def chatGE (a b : Chat) : Prop := b.updatedAt ≤ a.updatedAt

instance : DecidableRel chatGE := fun a b =>
  inferInstanceAs (Decidable (b.updatedAt ≤ a.updatedAt))

instance : IsTotal Chat chatGE :=
  ⟨fun a b => (Nat.le_total b.updatedAt a.updatedAt).imp id id⟩

instance : IsTrans Chat chatGE :=
  ⟨fun _ _ _ hab hbc => Nat.le_trans hbc hab⟩

/-- Model of `DatabaseService.get_chats`: chats of the user ordered by `updated_at`
descending, capped by `limit(50)` FIRST, then filtered to chats with at
least one message; re-raises on store failure. -/
def getChats (s : Store) (uid : Nat) : Except DBError (List Chat) :=
  if s.failing then .error .storage
  else
    let sorted := List.insertionSort chatGE (s.chats.filter (fun c => c.userId == uid))
    .ok ((sorted.take 50).filter (fun c => decide (0 < countMessages s c.id)))

/-! ### The stream coordinator (`generate_stream` in `main.py`) -/

/-- One SSE chunk sent to the client.  The code serialises a JSON object
with fields `type`, `content` and `message_id`; the `complete` chunk
always carries empty content, so it is modelled without a content field. -/
inductive Event where
  | token (content : String) (msgId : Nat)
  | complete (msgId : Nat)
  | error (content : String) (msgId : Nat)
deriving DecidableEq, Repr

/-- Returns `true` for the terminal event kinds `complete` and `error`. -/
def Event.isTerminal : Event → Bool
  | .token _ _ => false
  | .complete _ => true
  | .error _ _ => true

/-- One observable step of the generator: either a chunk yielded to the
client or an `update_message_content` write to the store. -/
inductive Action where
  | emit (e : Event)
  | write (msgId : Nat) (content : String) (isStreaming : Bool)
deriving DecidableEq, Repr

/-- The chunks a run of the generator yields to the client, in order. -/
def eventsOf : List Action → List Event :=
  List.filterMap (fun a =>
    match a with
    | .emit e => some e
    | .write _ _ _ => none)

/-- The `update_message_content` writes a run of the generator performs,
in order, as `(message_id, content, is_streaming)` triples. -/
def writesOf : List Action → List (Nat × String × Bool) :=
  List.filterMap (fun a =>
    match a with
    | .emit _ => none
    | .write mid c b => some (mid, c, b))

/-- What the `async for` loop in `generate_stream` observes from the token
source: the tokens yielded, then either normal exhaustion
(`failure = none`) or an exception with message `e` (`failure = some e`). -/
structure StreamInput where
  tokens : List String
  failure : Option String
deriving DecidableEq, Repr

/-- In-order concatenation of a token list (the accumulator's final value). -/
def concatStrings : List String → String
  | [] => ""
  | t :: ts => t ++ concatStrings ts

/-- The loop body of `generate_stream`: for each token, append it to the
accumulator, yield a `token` chunk, and checkpoint the accumulator with
`is_streaming=True` when its total length is a multiple of 50.  Returns the
actions of the loop and the final accumulator. -/
def streamLoop (msgId : Nat) (acc : String) : List String → List Action × String
  | [] => ([], acc)
  | t :: ts =>
    let acc' := acc ++ t
    let cp : List Action :=
      if acc'.length % 50 == 0 then [.write msgId acc' true] else []
    let (rest, fin) := streamLoop msgId acc' ts
    (Action.emit (.token t msgId) :: (cp ++ rest), fin)

/-- The persisted failure note of `generate_stream`'s `except` branch:
`f"I apologize, but I encountered an error: {str(e)}"`. -/
def errorNote (e : String) : String :=
  "I apologize, but I encountered an error: " ++ e

/-- The terminal actions of `generate_stream`: on normal exhaustion, the
final `is_streaming=False` checkpoint of the full accumulator followed by
the `complete` chunk; on an exception, the `error` chunk (yielded first)
followed by the write of the failure note with `is_streaming=False` —
the accumulated content is not part of that write. -/
def terminalActions (msgId : Nat) (fin : String) : Option String → List Action
  | none => [.write msgId fin false, .emit (.complete msgId)]
  | some e => [.emit (.error ("Error: " ++ e) msgId), .write msgId (errorNote e) false]

/-- Model of `generate_stream` from `main.py`, as the trace of actions of one run in
which the store writes succeed. -/
def generateStream (msgId : Nat) (inp : StreamInput) : List Action :=
  let r := streamLoop msgId "" inp.tokens
  r.1 ++ terminalActions msgId r.2 inp.failure

/-! ### The completion-source adapter (`ai_service.py`) -/

/-- The outcome of the underlying chat-completion call: the content chunks
it yields, then either normal termination or a raised exception `e`. -/
structure Completion where
  chunks : List String
  failure : Option String
deriving Repr

/-- The fallback token yielded by the `except` clause of
`AIService.generate_streaming_response`. -/
def apology (e : String) : String :=
  "I apologize, but I\x27m experiencing some technical difficulties right now. Error: " ++ e

/-- Model of `AIService.generate_streaming_response`: the whole body is wrapped in
`try/except`, so a failure of the underlying stream is swallowed and one
fallback token is yielded instead; the adapter itself never raises. -/
def aiStream (comp : Completion) : StreamInput :=
  match comp.failure with
  | none => ⟨comp.chunks, none⟩
  | some e => ⟨comp.chunks ++ [apology e], none⟩

/-- Model of `AIService.generate_chat_title`: `none` models the completion call
raising (mapped to `"New Chat"`); `some raw` models the returned content,
which is trimmed, stripped of surrounding quotes, and defaulted when empty. -/
def generateChatTitle (resp : Option String) : String :=
  match resp with
  | none => "New Chat"
  | some raw =>
    let isQ : Char → Bool := fun c => c == '"' || c == Char.ofNat 39
    let t := String.mk ((((raw.trim.toList.dropWhile isQ).reverse.dropWhile isQ).reverse))
    if t.isEmpty then "New Chat" else t

/-! ### The stream endpoint (`stream_message` in `main.py`) -/

/-- The HTTP-level failures of the endpoint: pydantic body validation of
`MessageCreate` (`min_length=1`) failing before the handler runs,
`HTTPException(404)`, and the catch-all 500. -/
inductive HttpError where
  | validation
  | notFound
  | internal
deriving DecidableEq, Repr

/-- The HTTP status each failure maps to.  A body-validation failure
raises `RequestValidationError`, which is answered by the framework's
default handler for that class with status 422: the repository never
overrides it, and its `value_error_handler` (status 400) is registered
for `ValueError` only, which `RequestValidationError` does not subclass,
so the 400 handler never matches a body-validation failure.  `notFound`
is `HTTPException(status_code=404)`; `internal` is the 500 of
`HTTPException(status_code=500)` and `general_exception_handler`. -/
def statusOf : HttpError → Nat
  | .validation => 422
  | .notFound => 404
  | .internal => 500

/-- The successful response of the endpoint: the placeholder message id,
the trace of the streamed run, and whether the title task was scheduled. -/
structure StreamPayload where
  messageId : Nat
  trace : List Action
  titleScheduled : Bool
deriving Repr

/-- The observable outcome of one call: the HTTP response, the store after
all writes of the call, and how many `update_chat_title` calls were made. -/
structure Outcome where
  response : Except HttpError StreamPayload
  store : Store
  titleCalls : Nat
deriving Repr

/-- Apply the generator's writes to the store in order (each is the success
path of `update_message_content`). -/
def applyTrace (s : Store) (tr : List Action) : Store :=
  tr.foldl (fun st a =>
    match a with
    | .emit _ => st
    | .write mid c b => setMessage st mid c (some b)) s

/-- Model of `generate_and_update_title` from `main.py`: build the title via the
adapter and write it with `update_chat_title`; any exception is caught and
swallowed.  Returns the store and the number of title-update calls (one). -/
def runTitleTask (s : Store) (cid : Nat) (resp : Option String) : Store × Nat :=
  match updateChatTitle s cid (generateChatTitle resp) with
  | .ok s2 => (s2, 1)
  | .error _ => (s, 1)

/-- Model of `stream_message` from `main.py`, composed with the request validation of
`MessageCreate` (`models.py`) and the error handlers: validate the body,
look up the chat (404 when absent), write the user message, write the
empty in-progress assistant placeholder, fetch the history excluding the
placeholder, schedule the title task exactly when that history has length
one, run the stream generator, and finally run the scheduled background
task (FastAPI background tasks run after the response body finishes). -/
def handleRequest (s : Store) (cid : Nat) (content : String)
    (comp : Completion) (titleResp : Option String) : Outcome :=
  if content.isEmpty then ⟨.error .validation, s, 0⟩
  else
    match getChat s cid demoUserId with
    | none => ⟨.error .notFound, s, 0⟩
    | some _ =>
      match createMessage s cid .user content false with
      | .error _ => ⟨.error .internal, s, 0⟩
      | .ok (s1, _) =>
        match createMessage s1 cid .assistant "" true with
        | .error _ => ⟨.error .internal, s1, 0⟩
        | .ok (s2, m) =>
          match getMessages s2 cid with
          | .error _ => ⟨.error .internal, s2, 0⟩
          | .ok existing =>
            let context := existing.filter (fun msg => msg.id != m.id)
            let sched := context.length == 1
            let tr := generateStream m.id (aiStream comp)
            let s3 := applyTrace s2 tr
            if sched then
              let r := runTitleTask s3 cid titleResp
              ⟨.ok ⟨m.id, tr, true⟩, r.1, r.2⟩
            else
              ⟨.ok ⟨m.id, tr, false⟩, s3, 0⟩

/-- The sequence of accumulator values just after each token is appended. -/
def accPrefixes (acc : String) : List String → List String
  | [] => []
  | t :: ts => (acc ++ t) :: accPrefixes (acc ++ t) ts

/-- The content of the terminal write of the generator: the full
accumulator on the normal path, only the failure note on the error path. -/
def terminalContent (inp : StreamInput) : String :=
  match inp.failure with
  | none => concatStrings inp.tokens
  | some e => errorNote e

/-- A store is well formed when every stored message id is below the next
server-assigned id (so freshly inserted rows never collide). -/
def Store.WF (s : Store) : Prop := ∀ m ∈ s.messages, m.id < s.nextId

/-! ### The success branch of the endpoint, named for reuse -/

/-- The store after the two inserts of `stream_message`: the user message
row, then the empty in-progress assistant placeholder row. -/
def insertedStore (s : Store) (cid : Nat) (content : String) : Store :=
  { s with
    messages := (s.messages ++ [⟨s.nextId, cid, .user, content, false⟩])
                  ++ [⟨s.nextId + 1, cid, .assistant, "", true⟩],
    nextId := s.nextId + 1 + 1 }

/-- Model of `context_messages` of `stream_message`: the fetched history of the chat
with the assistant placeholder filtered out by id. -/
def contextOf (s : Store) (cid : Nat) (content : String) : List Message :=
  ((insertedStore s cid content).messages.filter (fun mm => mm.chatId == cid)).filter
    (fun mm => mm.id != s.nextId + 1)

/-- The outcome of the success branch of `stream_message`. -/
def okOutcome (s : Store) (cid : Nat) (content : String) (comp : Completion)
    (resp : Option String) : Outcome :=
  let tr := generateStream (s.nextId + 1) (aiStream comp)
  let s3 := applyTrace (insertedStore s cid content) tr
  if (contextOf s cid content).length == 1 then
    ⟨.ok ⟨s.nextId + 1, tr, true⟩, (runTitleTask s3 cid resp).1,
     (runTitleTask s3 cid resp).2⟩
  else ⟨.ok ⟨s.nextId + 1, tr, false⟩, s3, 0⟩

/-- The top-50-by-recency window that `get_chats` applies BEFORE the
has-messages filter: the user's chats ordered by `updated_at` descending,
truncated to 50. -/
def recentWindow (s : Store) (uid : Nat) : List Chat :=
  (List.insertionSort chatGE (s.chats.filter (fun c => c.userId == uid))).take 50

/-! ### Concrete stores used as witnesses and counterexamples -/

/-- A conversation of the demo user with no messages yet. -/
def wChat : Chat := ⟨1, "New Chat", demoUserId, 10⟩

/-- A healthy store holding only `wChat`. -/
def wStore : Store := ⟨[wChat], [], false, 100⟩

/-- A healthy store holding `wChat` and one existing message in it. -/
def wStoreOneMsg : Store :=
  ⟨[wChat], [⟨5, 1, .user, "earlier", false⟩], false, 100⟩

/-- A store whose client raises on every call (`failing = true`), holding
an existing conversation of the demo user. -/
def failStore : Store := ⟨[wChat], [], true, 100⟩

/-- A store with 51 conversations of the demo user: ids 1..51 with strictly
decreasing `updated_at`, where only the oldest one (id 51) has a message. -/
def bigStore : Store :=
  ⟨(List.range 51).map (fun i => ⟨i + 1, "c", demoUserId, 100 - i⟩),
   [⟨1000, 51, .user, "m", false⟩], false, 1001⟩

/-! ### Lemmas about the stream loop -/

theorem streamLoop_snd (msgId : Nat) (ts : List String) :
    ∀ acc, (streamLoop msgId acc ts).2 = acc ++ concatStrings ts := by
  induction ts with
  | nil => intro acc; simp [streamLoop, concatStrings]
  | cons t ts ih =>
    intro acc
    simp [streamLoop, concatStrings, ih (acc ++ t), String.append_assoc]

theorem eventsOf_append (a b : List Action) :
    eventsOf (a ++ b) = eventsOf a ++ eventsOf b := by
  simp [eventsOf, List.filterMap_append]

theorem writesOf_append (a b : List Action) :
    writesOf (a ++ b) = writesOf a ++ writesOf b := by
  simp [writesOf, List.filterMap_append]

theorem eventsOf_streamLoop (msgId : Nat) (ts : List String) :
    ∀ acc, eventsOf (streamLoop msgId acc ts).1
      = ts.map (fun t => Event.token t msgId) := by
  induction ts with
  | nil => intro acc; simp [streamLoop, eventsOf]
  | cons t ts ih =>
    intro acc
    by_cases h : (acc.length + t.length) % 50 = 0
    · simp [streamLoop, eventsOf, List.filterMap_append, String.length_append, h]
      exact ih (acc ++ t)
    · simp [streamLoop, eventsOf, List.filterMap_append, String.length_append, h]
      exact ih (acc ++ t)

theorem writesOf_streamLoop (msgId : Nat) (ts : List String) :
    ∀ acc, writesOf (streamLoop msgId acc ts).1
      = ((accPrefixes acc ts).filter (fun p => p.length % 50 == 0)).map
          (fun p => (msgId, p, true)) := by
  induction ts with
  | nil => intro acc; simp [streamLoop, writesOf, accPrefixes]
  | cons t ts ih =>
    intro acc
    by_cases h : (acc.length + t.length) % 50 = 0
    · simp [streamLoop, accPrefixes, writesOf, List.filterMap_append,
        String.length_append, h]
      exact ih (acc ++ t)
    · simp [streamLoop, accPrefixes, writesOf, List.filterMap_append,
        String.length_append, h]
      exact ih (acc ++ t)

theorem generateStream_eq (msgId : Nat) (inp : StreamInput) :
    generateStream msgId inp
      = (streamLoop msgId "" inp.tokens).1
          ++ terminalActions msgId (concatStrings inp.tokens) inp.failure := by
  have h : (streamLoop msgId "" inp.tokens).2 = concatStrings inp.tokens := by
    have := streamLoop_snd msgId inp.tokens ""
    simpa using this
  simp [generateStream, h]

theorem eventsOf_generateStream (msgId : Nat) (inp : StreamInput) :
    eventsOf (generateStream msgId inp)
      = inp.tokens.map (fun t => Event.token t msgId)
          ++ eventsOf (terminalActions msgId (concatStrings inp.tokens) inp.failure) := by
  rw [generateStream_eq, eventsOf_append, eventsOf_streamLoop]

theorem writesOf_generateStream (msgId : Nat) (inp : StreamInput) :
    writesOf (generateStream msgId inp)
      = ((accPrefixes "" inp.tokens).filter (fun p => p.length % 50 == 0)).map
          (fun p => (msgId, p, true))
        ++ [(msgId, terminalContent inp, false)] := by
  rw [generateStream_eq, writesOf_append, writesOf_streamLoop]
  congr 1
  cases hf : inp.failure with
  | none => simp [terminalActions, writesOf, terminalContent, hf]
  | some e => simp [terminalActions, writesOf, terminalContent, hf]

theorem concatStrings_concat (l : List String) (x : String) :
    concatStrings (l ++ [x]) = concatStrings l ++ x := by
  induction l with
  | nil => simp [concatStrings, String.append_empty]
  | cons t ts ih => simp [concatStrings, ih, String.append_assoc]

theorem handleRequest_ok (s : Store) (cid : Nat) (content : String)
    (comp : Completion) (resp : Option String) (c0 : Chat)
    (hf : s.failing = false) (hne : content.isEmpty = false)
    (hfind : getChat s cid demoUserId = some c0) :
    handleRequest s cid content comp resp = okOutcome s cid content comp resp := by
  unfold handleRequest
  rw [hfind]
  simp only [hne, Bool.false_eq_true, if_false, createMessage, getMessages, hf,
    okOutcome, insertedStore, contextOf, List.append_assoc, List.cons_append,
    List.nil_append]

theorem contextOf_length (s : Store) (cid : Nat) (content : String)
    (hwf : Store.WF s) :
    (contextOf s cid content).length = countMessages s cid + 1 := by
  have hprior : (List.filter (fun mm => mm.id != s.nextId + 1)
      (List.filter (fun mm => mm.chatId == cid) s.messages))
      = List.filter (fun mm => mm.chatId == cid) s.messages := by
    apply List.filter_eq_self.mpr
    intro a ha
    have hmem : a ∈ s.messages := (List.mem_filter.mp ha).1
    have hlt := hwf a hmem
    simp only [bne_iff_ne, ne_eq]
    omega
  have hu : (s.nextId != s.nextId + 1) = true := by
    simp [bne_iff_ne]
  unfold contextOf insertedStore countMessages
  simp [List.filter_append, hprior, hu]

theorem runTitleTask_snd (s : Store) (cid : Nat) (resp : Option String) :
    (runTitleTask s cid resp).2 = 1 := by
  unfold runTitleTask
  cases h : updateChatTitle s cid (generateChatTitle resp) <;> simp

theorem countP_terminal_generateStream (msgId : Nat) (inp : StreamInput) :
    (eventsOf (generateStream msgId inp)).countP Event.isTerminal = 1 := by
  rw [eventsOf_generateStream, List.countP_append]
  have h1 : (inp.tokens.map fun t => Event.token t msgId).countP Event.isTerminal
      = 0 := by
    rw [List.countP_eq_zero]
    intro e he
    obtain ⟨t, _, rfl⟩ := List.mem_map.mp he
    simp [Event.isTerminal]
  cases hf : inp.failure <;>
    simp [h1, terminalActions, eventsOf, Event.isTerminal]

theorem getLast_terminal_generateStream (msgId : Nat) (inp : StreamInput) :
    (eventsOf (generateStream msgId inp)).getLast?.map Event.isTerminal
      = some true := by
  rw [eventsOf_generateStream]
  cases hf : inp.failure with
  | none =>
    simp [terminalActions, eventsOf, List.getLast?_concat, Event.isTerminal]
  | some e =>
    simp [terminalActions, eventsOf, List.getLast?_concat, Event.isTerminal]

/-! ### Claim theorems -/

/-- Claim C1, counterexample: run the stream with a Completion Source that
fails (`some "boom"`) after yielding the single token `"Par"`.  The claim
demands the client receive the token events followed by one `error` event;
the actual run yields a second `token` event carrying the adapter's
fallback apology and then a `complete` event — zero `error` events. -/
theorem claim1_counterexample :
    eventsOf (generateStream 1 (aiStream ⟨["Par"], some "boom"⟩))
      = [Event.token "Par" 1, Event.token (apology "boom") 1, Event.complete 1]
    ∧ (eventsOf (generateStream 1 (aiStream ⟨["Par"], some "boom"⟩))).countP
        (fun ev => match ev with
          | Event.error _ _ => true
          | _ => false) = 0 :=
  ⟨rfl, rfl⟩

/-- Claim C1, amended: when the Completion Source fails after yielding
tokens T1..Tk, `generate_streaming_response` swallows the failure and
yields one extra fallback token, so the client receives the token events
for T1..Tk, then one `token` event with the apology text, then one
`complete` event (no `error` event); the final persisted content equals
concat(T1..Tk) concatenated with the apology text and is written with
`is_streaming = false` before the `complete` event is emitted. -/
theorem claim1_source_failure (chunks : List String) (e : String) (msgId : Nat) :
    eventsOf (generateStream msgId (aiStream ⟨chunks, some e⟩))
      = (chunks.map (fun t => Event.token t msgId))
        ++ [Event.token (apology e) msgId, Event.complete msgId]
    ∧ (generateStream msgId (aiStream ⟨chunks, some e⟩)).reverse.take 2
      = [Action.emit (Event.complete msgId),
         Action.write msgId (concatStrings chunks ++ apology e) false] := by
  have hs : aiStream ⟨chunks, some e⟩
      = (⟨chunks ++ [apology e], none⟩ : StreamInput) := rfl
  have hcc : concatStrings (chunks ++ [apology e])
      = concatStrings chunks ++ apology e := concatStrings_concat _ _
  constructor
  · rw [hs, eventsOf_generateStream]
    simp [terminalActions, eventsOf]
  · rw [hs, generateStream_eq]
    simp [terminalActions, hcc]

/-- Claim C3: on the normal path, for every finite token sequence, the
final write of the run persists the exact in-order concatenation of all
tokens with `is_streaming = false`, and that terminal checkpoint is the
second-to-last action of the trace, immediately before the `complete`
event, which is the last action. -/
theorem claim3_normal_persistence (msgId : Nat) (tokens : List String) :
    (writesOf (generateStream msgId ⟨tokens, none⟩)).getLast?
        = some (msgId, concatStrings tokens, false)
    ∧ (generateStream msgId ⟨tokens, none⟩).reverse.take 2
        = [Action.emit (Event.complete msgId),
           Action.write msgId (concatStrings tokens) false] := by
  constructor
  · rw [writesOf_generateStream]
    simp [terminalContent]
  · rw [generateStream_eq]
    simp [terminalActions]

/-- Claim C5, counterexample: a call with empty user text against the
concrete store fails with the body-validation error, but that error is
answered with HTTP status 422 by the framework's default
`RequestValidationError` handler, not with the claimed 400 — the
repository's `value_error_handler` (400) is registered for `ValueError`
and never matches a body-validation failure. -/
theorem claim5_counterexample :
    (handleRequest wStore 1 "" ⟨[], none⟩ none).response
        = Except.error HttpError.validation
    ∧ statusOf HttpError.validation = 422
    ∧ statusOf HttpError.validation ≠ 400 :=
  ⟨rfl, rfl, by decide⟩

/-- Claim C5, amended: a call with empty user text fails pydantic body
validation (`MessageCreate`, `min_length=1`) before the handler body runs
and is answered with HTTP status 422 by the framework's default handler
for validation failures, and no side effects occur: the store is
unchanged, no stream is started, and no title-update call is made. -/
theorem claim5_empty_content (s : Store) (cid : Nat) (comp : Completion)
    (resp : Option String) :
    (handleRequest s cid "" comp resp).response
        = Except.error HttpError.validation
    ∧ (handleRequest s cid "" comp resp).store = s
    ∧ (handleRequest s cid "" comp resp).titleCalls = 0
    ∧ statusOf HttpError.validation = 422 :=
  ⟨rfl, rfl, rfl, rfl⟩

/-- Claim C6: a mid-stream checkpoint is written exactly when, after
appending an individual token, the accumulated length is a multiple of 50,
and every such checkpoint carries `is_streaming = true`; only the terminal
write carries `is_streaming = false`.  In particular a 13-character token
appended at accumulated length 40 jumps past the 50-character boundary and
produces no checkpoint. -/
theorem claim6_checkpoint_policy :
    (∀ (msgId : Nat) (inp : StreamInput),
      writesOf (generateStream msgId inp)
        = ((accPrefixes "" inp.tokens).filter (fun p => p.length % 50 == 0)).map
            (fun p => (msgId, p, true))
          ++ [(msgId, terminalContent inp, false)])
    ∧ writesOf (generateStream 7
        ⟨[String.mk (List.replicate 40 'a'), String.mk (List.replicate 13 'b')],
          none⟩)
      = [(7, String.mk (List.replicate 40 'a' ++ List.replicate 13 'b'), false)] := by
  refine ⟨writesOf_generateStream, ?_⟩
  decide

/-- Claim C9, counterexample: with the store client failing, `get_chat`
swallows the failure into `None`, indistinguishable from the chat being
absent, and the stream endpoint turns a storage failure into the same 404
not-found response — a storage failure observed as a not-found result. -/
theorem claim9_counterexample :
    getChat failStore 1 demoUserId = none
    ∧ getChat wStore 2 demoUserId = none
    ∧ (handleRequest failStore 1 "hello" ⟨[], none⟩ none).response
        = Except.error HttpError.notFound
    ∧ statusOf HttpError.notFound = 404 :=
  ⟨rfl, rfl, rfl, rfl⟩

/-- Claim C9, amended: only some operations surface store-level failures
distinctly.  `get_messages`, `get_chats`, `create_message`,
`update_message_content` and `update_chat_title` re-raise a storage error,
distinguishable from not-found; but `get_chat` returns `None` and
`delete_chat` returns `False` on a storage failure, so for those two
operations a storage failure is observed exactly as a not-found result. -/
theorem claim9_amended (s : Store) (cid uid : Nat) (title content : String)
    (role : MessageRole) (streaming : Bool) (ms : Option Bool) :
    getChat { s with failing := true } cid uid = none
    ∧ deleteChat { s with failing := true } cid uid
        = (false, { s with failing := true })
    ∧ getMessages { s with failing := true } cid = Except.error DBError.storage
    ∧ getChats { s with failing := true } uid = Except.error DBError.storage
    ∧ createMessage { s with failing := true } cid role content streaming
        = Except.error DBError.storage
    ∧ updateMessageContent { s with failing := true } cid content ms
        = Except.error DBError.storage
    ∧ updateChatTitle { s with failing := true } cid title
        = Except.error DBError.storage :=
  ⟨rfl, rfl, rfl, rfl, rfl, rfl, rfl⟩

/-- Claim C10: the 50-entry cap of `get_chats` is applied to the chat list
BEFORE the has-messages filter, so the result is exactly the subsequence of
the 50 most-recently-updated chats owning at least one message; in
`bigStore` the only non-empty chat (id 51) sits outside the 50-entry
window, so it is omitted even though the returned list is empty. -/
theorem claim10_window :
    (∀ (s : Store) (uid : Nat),
      getChats s uid
        = if s.failing then Except.error DBError.storage
          else Except.ok ((recentWindow s uid).filter
              (fun c => decide (0 < countMessages s c.id))))
    ∧ getChats bigStore demoUserId = Except.ok []
    ∧ (∃ c ∈ bigStore.chats,
        c.userId = demoUserId ∧ 0 < countMessages bigStore c.id) := by
  refine ⟨fun s uid => rfl, rfl, ?_⟩
  exact ⟨⟨51, "c", demoUserId, 50⟩, by decide, rfl, by decide⟩

/-- Claim C2: for every valid call to the stream endpoint (existing
conversation of the demo user, non-empty text) and every completion
outcome (terminating normally or with a failure), the event sequence the
client receives contains exactly one terminal event, and that terminal
event is the last event. -/
theorem claim2_unique_terminal (s : Store) (cid : Nat) (content : String)
    (comp : Completion) (resp : Option String) (c0 : Chat)
    (hf : s.failing = false) (hne : content.isEmpty = false)
    (hfind : getChat s cid demoUserId = some c0) :
    ∃ p, (handleRequest s cid content comp resp).response = Except.ok p
      ∧ (eventsOf p.trace).countP Event.isTerminal = 1
      ∧ (eventsOf p.trace).getLast?.map Event.isTerminal = some true := by
  rw [handleRequest_ok s cid content comp resp c0 hf hne hfind]
  unfold okOutcome
  by_cases h : ((contextOf s cid content).length == 1) = true
  · exact ⟨⟨s.nextId + 1, generateStream (s.nextId + 1) (aiStream comp), true⟩,
      by simp [h], countP_terminal_generateStream _ _,
      getLast_terminal_generateStream _ _⟩
  · exact ⟨⟨s.nextId + 1, generateStream (s.nextId + 1) (aiStream comp), false⟩,
      by simp [h], countP_terminal_generateStream _ _,
      getLast_terminal_generateStream _ _⟩

/-- Witness for claim C2: concrete run against `wStore` with the single
token `"Hi"`. -/
theorem claim2_witness :
    ∃ p, (handleRequest wStore 1 "hello" ⟨["Hi"], none⟩ none).response
          = Except.ok p
      ∧ (eventsOf p.trace).countP Event.isTerminal = 1
      ∧ (eventsOf p.trace).getLast?.map Event.isTerminal = some true :=
  claim2_unique_terminal wStore 1 "hello" ⟨["Hi"], none⟩ none wChat rfl rfl rfl

/-- Claim C4: calling the stream endpoint with non-empty text against a
conversation id that no chat of the demo user bears fails with the
not-found error (status 404) before any streaming begins, and the store is
left untouched: no user message and no assistant placeholder are written,
and no title-update call is made. -/
theorem claim4_not_found (s : Store) (cid : Nat) (content : String)
    (comp : Completion) (resp : Option String)
    (hne : content.isEmpty = false)
    (habs : ∀ c ∈ s.chats, ¬(c.id = cid ∧ c.userId = demoUserId)) :
    (handleRequest s cid content comp resp).response
        = Except.error HttpError.notFound
    ∧ (handleRequest s cid content comp resp).store = s
    ∧ (handleRequest s cid content comp resp).titleCalls = 0
    ∧ statusOf HttpError.notFound = 404 := by
  have hnone : getChat s cid demoUserId = none := by
    unfold getChat
    by_cases hfl : s.failing = true
    · simp [hfl]
    · rw [Bool.not_eq_true] at hfl
      simp only [hfl, Bool.false_eq_true, if_false]
      apply List.find?_eq_none.mpr
      intro c hc
      have := habs c hc
      simp only [Bool.and_eq_true, beq_iff_eq]
      tauto
  refine ⟨?_, ?_, ?_, rfl⟩ <;>
    · unfold handleRequest
      rw [hnone]
      simp [hne]

/-- Witness for claim C4: calling against `wStore` with the absent id 2. -/
theorem claim4_witness :
    (handleRequest wStore 2 "hello" ⟨[], none⟩ none).response
        = Except.error HttpError.notFound
    ∧ (handleRequest wStore 2 "hello" ⟨[], none⟩ none).store = wStore
    ∧ (handleRequest wStore 2 "hello" ⟨[], none⟩ none).titleCalls = 0
    ∧ statusOf HttpError.notFound = 404 :=
  claim4_not_found wStore 2 "hello" ⟨[], none⟩ none rfl (by decide)

/-- Claim C7: in a valid call, the title side-task is scheduled exactly
when the fetched history excluding the placeholder has length one, i.e.
exactly when the conversation had no prior messages; when scheduled,
exactly one title-update call occurs (and the task swallows any failure of
the title write); and the title outcome never affects the primary event
stream: the trace is the same for any two title results. -/
theorem claim7_title_task (s : Store) (cid : Nat) (content : String)
    (comp : Completion) (r1 r2 : Option String) (c0 : Chat)
    (hwf : Store.WF s) (hf : s.failing = false) (hne : content.isEmpty = false)
    (hfind : getChat s cid demoUserId = some c0) :
    ∃ p, (handleRequest s cid content comp r1).response = Except.ok p
      ∧ (p.titleScheduled = true ↔ countMessages s cid = 0)
      ∧ (handleRequest s cid content comp r1).titleCalls
          = (if p.titleScheduled = true then 1 else 0)
      ∧ ∃ q, (handleRequest s cid content comp r2).response = Except.ok q
          ∧ q.trace = p.trace := by
  rw [handleRequest_ok s cid content comp r1 c0 hf hne hfind,
      handleRequest_ok s cid content comp r2 c0 hf hne hfind]
  unfold okOutcome
  have hlen := contextOf_length s cid content hwf
  by_cases hn : countMessages s cid = 0
  · have hcond : ((contextOf s cid content).length == 1) = true := by
      rw [hlen, hn]
      decide
    refine ⟨⟨s.nextId + 1, generateStream (s.nextId + 1) (aiStream comp), true⟩,
      by simp [hcond], by simp [hn], ?_, ?_⟩
    · simp [hcond, runTitleTask_snd]
    · exact ⟨⟨s.nextId + 1, generateStream (s.nextId + 1) (aiStream comp), true⟩,
        by simp [hcond], rfl⟩
  · have hcond : ((contextOf s cid content).length == 1) = false := by
      rw [hlen]
      simp only [beq_eq_false_iff_ne, ne_eq]
      omega
    refine ⟨⟨s.nextId + 1, generateStream (s.nextId + 1) (aiStream comp), false⟩,
      by simp [hcond], by simp [hn], by simp [hcond], ?_⟩
    exact ⟨⟨s.nextId + 1, generateStream (s.nextId + 1) (aiStream comp), false⟩,
      by simp [hcond], rfl⟩

/-- Witness for claim C7: first user turn in `wStore` schedules the task
and makes exactly one title-update call; the trace matches the run whose
title generation fails. -/
theorem claim7_witness :
    ∃ p, (handleRequest wStore 1 "hello" ⟨["Hi"], none⟩ (some "T")).response
          = Except.ok p
      ∧ (p.titleScheduled = true ↔ countMessages wStore 1 = 0)
      ∧ (handleRequest wStore 1 "hello" ⟨["Hi"], none⟩ (some "T")).titleCalls
          = (if p.titleScheduled = true then 1 else 0)
      ∧ ∃ q, (handleRequest wStore 1 "hello" ⟨["Hi"], none⟩ none).response
            = Except.ok q
          ∧ q.trace = p.trace :=
  claim7_title_task wStore 1 "hello" ⟨["Hi"], none⟩ (some "T") none wChat
    (fun m hm => absurd hm (List.not_mem_nil m)) rfl rfl rfl

/-- Claim C8: whenever `get_chats` answers, every returned chat owns at
least one message, at most 50 entries are returned, and the list is
ordered by `updated_at` descending. -/
theorem claim8_listing (s : Store) (uid : Nat) (l : List Chat)
    (h : getChats s uid = Except.ok l) :
    (∀ c ∈ l, 0 < countMessages s c.id) ∧ l.length ≤ 50
      ∧ l.Sorted chatGE := by
  unfold getChats at h
  cases hfl : s.failing with
  | true => rw [hfl] at h; simp at h
  | false =>
    rw [hfl] at h
    simp only [Bool.false_eq_true, if_false, Except.ok.injEq] at h
    subst h
    refine ⟨?_, ?_, ?_⟩
    · intro c hc
      exact of_decide_eq_true (List.mem_filter.mp hc).2
    · calc (List.filter _ ((List.insertionSort chatGE
            (s.chats.filter (fun c => c.userId == uid))).take 50)).length
          ≤ ((List.insertionSort chatGE
            (s.chats.filter (fun c => c.userId == uid))).take 50).length :=
            List.length_filter_le _ _
        _ ≤ 50 := by
            rw [List.length_take]
            exact Nat.min_le_left _ _
    · have hsorted : (List.insertionSort chatGE
          (s.chats.filter (fun c => c.userId == uid))).Sorted chatGE :=
        List.sorted_insertionSort chatGE _
      have hsub : List.Sublist
          (((List.insertionSort chatGE
              (s.chats.filter (fun c => c.userId == uid))).take 50).filter
            (fun c => decide (0 < countMessages s c.id)))
          (List.insertionSort chatGE
            (s.chats.filter (fun c => c.userId == uid))) :=
        (List.filter_sublist _).trans (List.take_sublist _ _)
      exact List.Pairwise.sublist hsub hsorted

/-- Witness for claim C8: the store with one chat owning one message. -/
theorem claim8_witness :
    (∀ c ∈ [wChat], 0 < countMessages wStoreOneMsg c.id)
    ∧ ([wChat] : List Chat).length ≤ 50
    ∧ ([wChat] : List Chat).Sorted chatGE :=
  claim8_listing wStoreOneMsg demoUserId [wChat] rfl

end Sythio
